import Mathlib

/-!
Verification of the celestial-mechanics core of `thejoker`
(`thejoker/celestialmechanics/celestialmechanics_class.py` and
`thejoker/plot.py`), shallowly embedded in Lean 4.

The engine primitives `rv_from_elements` (module
`thejoker.celestialmechanics.celestialmechanics`) and `find_t0`
(module `thejoker.util`) are imported by the class file but their
sources are not part of this tree; they are modelled from the
specification, as marked on each definition.  Everything else is
translated directly from the Python source.
-/

namespace TheJoker

/-! ## Physical units

`astropy.units` quantities are modelled as a real value tagged with a
unit; a unit is a physical dimension together with a rational scale
factor to a fixed base unit of that dimension (seconds, metres/second,
radians). -/

/-- Physical dimensions used by the orbit class. -/
inductive Dim : Type
  | time
  | velocity
  | angle
  deriving DecidableEq, Repr

/-- A unit: a dimension plus the scale factor to the base unit of that
dimension. -/
structure PhysUnit : Type where
  dim : Dim
  scale : ℚ
  deriving DecidableEq, Repr

def day : PhysUnit := ⟨Dim.time, 86400⟩
def second : PhysUnit := ⟨Dim.time, 1⟩
def mps : PhysUnit := ⟨Dim.velocity, 1⟩
def kmps : PhysUnit := ⟨Dim.velocity, 1000⟩
def radian : PhysUnit := ⟨Dim.angle, 1⟩
def degree : PhysUnit := ⟨Dim.angle, 3141592653589793 / 565486677646163 / 100⟩

/-- A physically tagged quantity (`astropy.units.Quantity` with a
scalar value). -/
structure Quantity : Type where
  value : ℝ
  unit : PhysUnit

/-- `Quantity.to`: astropy's `q.to(u)`, which fails
(`UnitConversionError`) when the dimensions differ and otherwise
rescales the value. -/
noncomputable def Quantity.to (q : Quantity) (u : PhysUnit) : Option ℝ :=
  if q.unit.dim = u.dim then some (q.value * (q.unit.scale : ℝ) / (u.scale : ℝ)) else none

/-- Errors the constructor can raise.  `@u.quantity_input` raises a
units error when an argument's unit is not convertible to the declared
one; the body raises nothing else. -/
inductive ConstructErr : Type
  | unitMismatch
  deriving DecidableEq, Repr

/-- The orbit object: the five elements exactly as stored by
`SimulatedRVOrbit.__init__` (`self.P`, `self.K`, `self.ecc`,
`self.phi0`, `self.omega`). -/
structure SimulatedRVOrbit : Type where
  P : Quantity
  K : Quantity
  ecc : ℝ
  phi0 : Quantity
  omega : Quantity

/-- `SimulatedRVOrbit.__init__` (celestialmechanics_class.py lines
22–29): the decorator `@u.quantity_input(P=u.day, K=u.km/u.s,
phi0=u.radian, omega=u.radian)` checks that `P` carries a time unit,
`K` a velocity unit and `phi0`, `omega` angle units, raising a unit
error otherwise; the body then stores the five values unchanged
(`ecc` coerced to float).  No range check on `P` or `ecc` is
performed. -/
def SimulatedRVOrbit.mk? (P K : Quantity) (ecc : ℝ) (phi0 omega : Quantity) :
    Except ConstructErr SimulatedRVOrbit :=
  if P.unit.dim = Dim.time ∧ K.unit.dim = Dim.velocity ∧
     phi0.unit.dim = Dim.angle ∧ omega.unit.dim = Dim.angle then
    Except.ok ⟨P, K, ecc, phi0, omega⟩
  else
    Except.error ConstructErr.unitMismatch

/-! ## Kepler engine

The functions `rv_from_elements` and `find_t0` are imported by the
class file but their sources are not in this tree; the definitions
below are modelled from the specification (§4.2–§4.4). -/

/-- Modelled from the spec: the mean anomaly used by the missing
`rv_from_elements`, `M(t) = 2π·((t − t_ref)/P mod 1)` shifted so that
`phi0` is the mean anomaly at the reference time `t_ref = 0`. -/
noncomputable def mean_anomaly (P phi0 t : ℝ) : ℝ :=
  2 * Real.pi * Int.fract (t / P) + phi0

/-- Left-hand side of Kepler's equation `E − e·sin E = M`. -/
noncomputable def kepler_lhs (e E : ℝ) : ℝ := E - e * Real.sin E

lemma kepler_lhs_strictMono {e : ℝ} (h0 : 0 ≤ e) (h1 : e < 1) :
    StrictMono (kepler_lhs e) := by
  apply strictMono_of_deriv_pos
  intro x
  have hd : HasDerivAt (kepler_lhs e) (1 - e * Real.cos x) x := by
    have h := (hasDerivAt_id x).sub ((Real.hasDerivAt_sin x).const_mul e)
    simpa [kepler_lhs] using h
  rw [hd.deriv]
  have hc : e * Real.cos x ≤ e := mul_le_of_le_one_right h0 (Real.cos_le_one x)
  linarith

lemma kepler_lhs_continuous (e : ℝ) : Continuous (kepler_lhs e) := by
  have h : Continuous fun E : ℝ => E - e * Real.sin E :=
    continuous_id.sub (continuous_const.mul Real.continuous_sin)
  simpa [kepler_lhs] using h

lemma kepler_exists {e : ℝ} (h0 : 0 ≤ e) (_h1 : e < 1) (M : ℝ) :
    ∃ E, kepler_lhs e E = M := by
  have hab : M - e ≤ M + e := by linarith
  have hlow : kepler_lhs e (M - e) ≤ M := by
    have hs : -1 ≤ Real.sin (M - e) := Real.neg_one_le_sin (M - e)
    have hnn : 0 ≤ e * (1 + Real.sin (M - e)) := mul_nonneg h0 (by linarith)
    unfold kepler_lhs
    nlinarith
  have hhigh : M ≤ kepler_lhs e (M + e) := by
    have hs : Real.sin (M + e) ≤ 1 := Real.sin_le_one (M + e)
    have hnn : 0 ≤ e * (1 - Real.sin (M + e)) := mul_nonneg h0 (by linarith)
    unfold kepler_lhs
    nlinarith
  have himg := intermediate_value_Icc hab (kepler_lhs_continuous e).continuousOn
  obtain ⟨E, _, hE⟩ := himg ⟨hlow, hhigh⟩
  exact ⟨E, hE⟩

lemma kepler_existsUnique {e : ℝ} (h0 : 0 ≤ e) (h1 : e < 1) (M : ℝ) :
    ∃! E, kepler_lhs e E = M := by
  obtain ⟨E, hE⟩ := kepler_exists h0 h1 M
  exact ⟨E, hE, fun y hy => (kepler_lhs_strictMono h0 h1).injective (hy.trans hE.symm)⟩

/-- Modelled from the spec (§4.2): the eccentric anomaly produced by the
missing Kepler solver — the (unique, for `0 ≤ e < 1`) root `E` of
`E − e·sin E = M`.  Outside the supported eccentricity range the spec
leaves the solver undefined; the model returns `M`. -/
noncomputable def eccentric_anomaly (e M : ℝ) : ℝ :=
  if h : 0 ≤ e ∧ e < 1 then (kepler_exists h.1 h.2 M).choose else M

lemma eccentric_anomaly_solves {e : ℝ} (h0 : 0 ≤ e) (h1 : e < 1) (M : ℝ) :
    kepler_lhs e (eccentric_anomaly e M) = M := by
  rw [eccentric_anomaly, dif_pos ⟨h0, h1⟩]
  exact (kepler_exists h0 h1 M).choose_spec

lemma eccentric_anomaly_eq_of {e : ℝ} (h0 : 0 ≤ e) (h1 : e < 1) {M E : ℝ}
    (hE : kepler_lhs e E = M) : eccentric_anomaly e M = E :=
  (kepler_lhs_strictMono h0 h1).injective
    (by rw [eccentric_anomaly_solves h0 h1, hE])

lemma eccentric_anomaly_zero {e : ℝ} (h0 : 0 ≤ e) (h1 : e < 1) :
    eccentric_anomaly e 0 = 0 :=
  eccentric_anomaly_eq_of h0 h1 (by simp [kepler_lhs])

/-- Two-argument arctangent, as the argument of the complex number
`x + y·i`. -/
noncomputable def atan2 (y x : ℝ) : ℝ := Complex.arg ((x : ℂ) + (y : ℂ) * Complex.I)

/-- Modelled from the spec (§4.2): true anomaly from eccentric anomaly
by the quadrant-corrected half-angle relation
`tan(ν/2) = sqrt((1+e)/(1−e))·tan(E/2)`. -/
noncomputable def true_anomaly (e E : ℝ) : ℝ :=
  2 * atan2 (Real.sqrt (1 + e) * Real.sin (E / 2))
            (Real.sqrt (1 - e) * Real.cos (E / 2))

lemma true_anomaly_zero (e : ℝ) : true_anomaly e 0 = 0 := by
  have hy : Real.sqrt (1 + e) * Real.sin (0 / 2) = 0 := by norm_num
  have hx : Real.sqrt (1 - e) * Real.cos (0 / 2) = Real.sqrt (1 - e) := by norm_num
  rw [true_anomaly, hy, hx, atan2]
  push_cast
  rw [zero_mul, add_zero, Complex.arg_ofReal_of_nonneg (Real.sqrt_nonneg _)]
  ring

/-- Modelled from the spec (§4.2–§4.3): the value the missing
`rv_from_elements` computes at a single time — mean anomaly, Kepler
solve, true anomaly, then the RV law
`K·(cos(ν + ω) + e·cos ω)`. -/
noncomputable def rv_at (P K e omega phi0 t : ℝ) : ℝ :=
  K * (Real.cos (true_anomaly e (eccentric_anomaly e (mean_anomaly P phi0 t)) + omega)
        + e * Real.cos omega)

/-- Modelled from the spec: `rv_from_elements(times, P, K, e, omega,
phi0)`, element-wise over the time array. -/
noncomputable def rv_from_elements (times : List ℝ) (P K e omega phi0 : ℝ) : List ℝ :=
  times.map (rv_at P K e omega phi0)

/-- Non-negative real modulo: `x mod P` with result in `[0, P)` for
`P > 0`, handling negative dividends (numpy's `%` semantics). -/
noncomputable def posMod (x P : ℝ) : ℝ := x - P * ⌊x / P⌋

/-- Modelled from the spec (§4.4): `find_t0(phi0, P, epoch)` — reduce
the base pericenter offset `−phi0/(2π)·P` into `[0, P)` by a
non-negative modulo, then shift by the whole number of periods that
brings it nearest the epoch. -/
noncomputable def find_t0 (phi0 P epoch : ℝ) : ℝ :=
  posMod (-phi0 / (2 * Real.pi) * P) P
    + (round ((epoch - posMod (-phi0 / (2 * Real.pi) * P) P) / P) : ℤ) * P

/-! ## Methods of `SimulatedRVOrbit` (celestialmechanics_class.py) -/

/-- `SimulatedRVOrbit._t0` (lines 31–34): convert `phi0` to radians and
`P` to days, call `find_t0` at the given epoch day count. -/
noncomputable def SimulatedRVOrbit.t0_internal (o : SimulatedRVOrbit) (epoch_day : ℝ) :
    Option ℝ := do
  let ph ← o.phi0.to radian
  let p ← o.P.to day
  pure (find_t0 ph p epoch_day)

/-- `SimulatedRVOrbit._generate_rv_curve` (lines 55–79): normalize the
stored elements to the internal convention (`P` in days, `K` in m/s,
`omega` and `phi0` in radians; times already a barycentric day count)
and call `rv_from_elements`. -/
noncomputable def SimulatedRVOrbit.rv_curve_internal (o : SimulatedRVOrbit) (t : List ℝ) :
    Option (List ℝ) := do
  let p ← o.P.to day
  let k ← o.K.to mps
  let om ← o.omega.to radian
  let ph ← o.phi0.to radian
  pure (rv_from_elements t p k o.ecc om ph)

/-- `SimulatedRVOrbit.generate_rv_curve` (lines 81–93): run the
internal pipeline, then re-tag the plain m/s numbers as velocity
quantities converted to km/s (`(rv*u.m/u.s).to(u.km/u.s)`). -/
noncomputable def SimulatedRVOrbit.generate_rv_curve (o : SimulatedRVOrbit) (t : List ℝ) :
    Option (List Quantity) := do
  let rv ← o.rv_curve_internal t
  pure (rv.map (fun v => ⟨v * (mps.scale : ℝ) / (kmps.scale : ℝ), kmps⟩))

/-- `SimulatedRVOrbit.__call__` (lines 95–96): delegates to
`generate_rv_curve`. -/
noncomputable def SimulatedRVOrbit.call (o : SimulatedRVOrbit) (t : List ℝ) :
    Option (List Quantity) :=
  o.generate_rv_curve t

/-- `SimulatedRVOrbit.plot` (lines 98–146): what the method hands to
the rendering sink — the numeric time values and the RV values
converted to the requested unit (default km/s, taking `.value`). -/
noncomputable def SimulatedRVOrbit.plot (o : SimulatedRVOrbit) (t : List ℝ) :
    Option (List ℝ × List ℝ) := do
  let rv ← o.generate_rv_curve t
  pure (t, rv.map Quantity.value)

/-! Explicit-state embedding of the method calls: each Python method is
a function of the receiver; the second component of the result is the
receiver's state after the call.  The method bodies (lines 31–146)
contain no assignment to `self`, so each returns the receiver
unchanged. -/

noncomputable def SimulatedRVOrbit.t0_run (o : SimulatedRVOrbit) (epoch_day : ℝ) :
    Option ℝ × SimulatedRVOrbit :=
  (o.t0_internal epoch_day, o)

noncomputable def SimulatedRVOrbit.generate_run (o : SimulatedRVOrbit) (t : List ℝ) :
    Option (List Quantity) × SimulatedRVOrbit :=
  (o.generate_rv_curve t, o)

noncomputable def SimulatedRVOrbit.call_run (o : SimulatedRVOrbit) (t : List ℝ) :
    Option (List Quantity) × SimulatedRVOrbit :=
  (o.call t, o)

noncomputable def SimulatedRVOrbit.plot_run (o : SimulatedRVOrbit) (t : List ℝ) :
    Option (List ℝ × List ℝ) × SimulatedRVOrbit :=
  (o.plot t, o)

/-! ## `plot_rv_curves` (plot.py) -/

/-- One posterior sample's orbital elements, already in the internal
numeric convention (days, m/s, radians). -/
structure InternalElements : Type where
  P : ℝ
  K : ℝ
  e : ℝ
  omega : ℝ
  phi0 : ℝ

/-- The samples ensemble (`JokerSamples`): the per-sample elements
(`samples.get_orbit(i)`) and the optional epoch attribute
`samples.t0`, a barycentric day count or `None`. -/
structure JokerSamples : Type where
  elements : List InternalElements
  t0 : Option ℝ

/-- Observable steps of `plot_rv_curves`, in execution order. -/
inductive PlotEvent : Type
  | computedModelRV
  | shiftedTimeAxis
  | plottedCurves
  deriving DecidableEq, Repr

inductive PlotErr : Type
  | valueError
  deriving DecidableEq, Repr

/-- What `plot_rv_curves` hands to the rendering sink. -/
structure PlotOutput : Type where
  bmjd : List ℝ
  model_rv : List (List ℝ)

/-- `plot_rv_curves` (plot.py lines 75–86), control-flow model: build
the per-sample RV matrix `model_rv`, then — only when
`relative_to_t0` is set — consult `samples.t0`, raising `ValueError`
when it is `None`; otherwise shift the time axis and plot.  The event
trace records which steps ran, in order. -/
noncomputable def plot_rv_curves (samples : JokerSamples) (t_grid : List ℝ)
    (relative_to_t0 : Bool) : List PlotEvent × Except PlotErr PlotOutput :=
  let model_rv := samples.elements.map
    (fun q => rv_from_elements t_grid q.P q.K q.e q.omega q.phi0)
  let bmjd := t_grid
  if relative_to_t0 then
    match samples.t0 with
    | none => ([PlotEvent.computedModelRV], Except.error PlotErr.valueError)
    | some t0v =>
        ([PlotEvent.computedModelRV, PlotEvent.shiftedTimeAxis, PlotEvent.plottedCurves],
          Except.ok ⟨bmjd.map (fun x => x - t0v), model_rv⟩)
  else
    ([PlotEvent.computedModelRV, PlotEvent.plottedCurves], Except.ok ⟨bmjd, model_rv⟩)

/-! ## Claims -/

/-- C3, counterexample: constructing `SimulatedRVOrbit` with period
`0 day` and eccentricity `1` — both outside the claimed valid ranges —
succeeds and produces an orbit object; no `InvalidParameter` is
raised (`__init__` stores the values without any range check). -/
theorem C3_counterexample :
    SimulatedRVOrbit.mk? ⟨0, day⟩ ⟨5, kmps⟩ 1 ⟨0, radian⟩ ⟨0, radian⟩ =
      Except.ok ⟨⟨0, day⟩, ⟨5, kmps⟩, 1, ⟨0, radian⟩, ⟨0, radian⟩⟩ := by
  rfl

/-- C3, amended: the constructor validates only unit dimensions; for
every input with compatible dimensions — including a non-positive
period value or an eccentricity outside `[0, 1)` — construction
succeeds and the orbit stores the five elements unchanged. -/
theorem C3_no_range_validation (P K : Quantity) (ecc : ℝ) (phi0 omega : Quantity)
    (hP : P.unit.dim = Dim.time) (hK : K.unit.dim = Dim.velocity)
    (hph : phi0.unit.dim = Dim.angle) (hom : omega.unit.dim = Dim.angle) :
    SimulatedRVOrbit.mk? P K ecc phi0 omega = Except.ok ⟨P, K, ecc, phi0, omega⟩ := by
  simp [SimulatedRVOrbit.mk?, hP, hK, hph, hom]

/-- C3, witness: the amended statement at period `0 day`,
eccentricity `1`. -/
theorem C3_no_range_validation_witness :
    (⟨0, day⟩ : Quantity).unit.dim = Dim.time ∧
    (⟨5, kmps⟩ : Quantity).unit.dim = Dim.velocity ∧
    (⟨0, radian⟩ : Quantity).unit.dim = Dim.angle ∧
    SimulatedRVOrbit.mk? ⟨0, day⟩ ⟨5, kmps⟩ 1 ⟨0, radian⟩ ⟨0, radian⟩ =
      Except.ok ⟨⟨0, day⟩, ⟨5, kmps⟩, 1, ⟨0, radian⟩, ⟨0, radian⟩⟩ :=
  ⟨rfl, rfl, rfl,
    C3_no_range_validation ⟨0, day⟩ ⟨5, kmps⟩ 1 ⟨0, radian⟩ ⟨0, radian⟩ rfl rfl rfl rfl⟩

/-- C7: when any argument's unit has the wrong dimension, construction
fails with the unit-mismatch error (raised by `@u.quantity_input`
before the body runs) and no orbit object is produced. -/
theorem C7_unit_mismatch_rejected (P K : Quantity) (ecc : ℝ) (phi0 omega : Quantity)
    (h : ¬(P.unit.dim = Dim.time ∧ K.unit.dim = Dim.velocity ∧
           phi0.unit.dim = Dim.angle ∧ omega.unit.dim = Dim.angle)) :
    SimulatedRVOrbit.mk? P K ecc phi0 omega = Except.error ConstructErr.unitMismatch := by
  unfold SimulatedRVOrbit.mk?
  rw [if_neg h]

/-- C7, witness: a period tagged with a velocity unit is rejected. -/
theorem C7_unit_mismatch_rejected_witness :
    ¬((⟨10, kmps⟩ : Quantity).unit.dim = Dim.time ∧
      (⟨5, kmps⟩ : Quantity).unit.dim = Dim.velocity ∧
      (⟨0, radian⟩ : Quantity).unit.dim = Dim.angle ∧
      (⟨0, radian⟩ : Quantity).unit.dim = Dim.angle) ∧
    SimulatedRVOrbit.mk? ⟨10, kmps⟩ ⟨5, kmps⟩ 0.5 ⟨0, radian⟩ ⟨0, radian⟩ =
      Except.error ConstructErr.unitMismatch :=
  ⟨by decide,
    C7_unit_mismatch_rejected ⟨10, kmps⟩ ⟨5, kmps⟩ 0.5 ⟨0, radian⟩ ⟨0, radian⟩ (by decide)⟩

/-- C8: for an orbit with dimensionally valid elements, the RV
pipeline on an empty time array returns an empty RV array and no
error. -/
theorem C8_empty_times (o : SimulatedRVOrbit)
    (hP : o.P.unit.dim = Dim.time) (hK : o.K.unit.dim = Dim.velocity)
    (hph : o.phi0.unit.dim = Dim.angle) (hom : o.omega.unit.dim = Dim.angle) :
    o.generate_rv_curve [] = some [] := by
  simp [SimulatedRVOrbit.generate_rv_curve, SimulatedRVOrbit.rv_curve_internal,
        Quantity.to, day, mps, radian, hP, hK, hph, hom, rv_from_elements]

/-- C8, witness: the empty-input behaviour at a concrete orbit. -/
theorem C8_empty_times_witness :
    (⟨⟨10, day⟩, ⟨5, kmps⟩, 0.3, ⟨0, radian⟩, ⟨1, radian⟩⟩ :
        SimulatedRVOrbit).generate_rv_curve [] = some [] :=
  C8_empty_times ⟨⟨10, day⟩, ⟨5, kmps⟩, 0.3, ⟨0, radian⟩, ⟨1, radian⟩⟩ rfl rfl rfl rfl

/-- C9: every method call (`t0`, `generate_rv_curve`, `__call__`,
`plot`) leaves the receiver's stored elements unchanged: in the
explicit-state embedding the post-state equals the input orbit. -/
theorem C9_methods_readonly (o : SimulatedRVOrbit) (epoch_day : ℝ) (t : List ℝ) :
    (o.t0_run epoch_day).2 = o ∧ ((o.t0_run epoch_day).2.P = o.P ∧
      (o.t0_run epoch_day).2.K = o.K ∧ (o.t0_run epoch_day).2.ecc = o.ecc ∧
      (o.t0_run epoch_day).2.phi0 = o.phi0 ∧ (o.t0_run epoch_day).2.omega = o.omega) ∧
    (o.generate_run t).2 = o ∧ (o.call_run t).2 = o ∧ (o.plot_run t).2 = o :=
  ⟨rfl, ⟨rfl, rfl, rfl, rfl, rfl⟩, rfl, rfl, rfl⟩

/-- C10: with `relative_to_t0` set and `samples.t0 = None`,
`plot_rv_curves` stops with `ValueError` after computing the
per-sample RV matrix and before any time-axis shift or plotting (the
event trace holds only the matrix-computation step); with
`relative_to_t0` unset, the result never depends on the `t0`
attribute. -/
theorem C10_plot_t0_handling (s : JokerSamples) (t_grid : List ℝ)
    (els : List InternalElements) (hs : s.t0 = none) :
    plot_rv_curves s t_grid true =
      ([PlotEvent.computedModelRV], Except.error PlotErr.valueError) ∧
    (∀ a b : Option ℝ,
      plot_rv_curves ⟨els, a⟩ t_grid false = plot_rv_curves ⟨els, b⟩ t_grid false) := by
  constructor
  · simp [plot_rv_curves, hs]
  · intro a b
    simp [plot_rv_curves]

/-- C10, witness: the error path at a concrete ensemble with no
epoch. -/
theorem C10_plot_t0_handling_witness :
    (JokerSamples.mk [] none).t0 = none ∧
    plot_rv_curves ⟨[], none⟩ [0] true =
      ([PlotEvent.computedModelRV], Except.error PlotErr.valueError) :=
  ⟨rfl, (C10_plot_t0_handling ⟨[], none⟩ [0] [] rfl).1⟩

lemma posMod_mem {x P : ℝ} (hP : 0 < P) : 0 ≤ posMod x P ∧ posMod x P < P := by
  have hP' : P ≠ 0 := ne_of_gt hP
  have h : posMod x P = P * Int.fract (x / P) := by
    unfold posMod Int.fract
    field_simp
  constructor
  · rw [h]
    exact mul_nonneg hP.le (Int.fract_nonneg _)
  · rw [h]
    have hlt := Int.fract_lt_one (x / P)
    calc P * Int.fract (x / P) < P * 1 := mul_lt_mul_of_pos_left hlt hP
      _ = P := mul_one P

lemma find_t0_def (phi0 P epoch : ℝ) :
    find_t0 phi0 P epoch = posMod (-phi0 / (2 * Real.pi) * P) P
      + (round ((epoch - posMod (-phi0 / (2 * Real.pi) * P) P) / P) : ℤ) * P := rfl

lemma nearest_shift_dist {P : ℝ} (hP : 0 < P) (b epoch : ℝ) :
    |b + (round ((epoch - b) / P) : ℤ) * P - epoch| ≤ P / 2 := by
  have hP' : P ≠ 0 := ne_of_gt hP
  have h1 : b + (round ((epoch - b) / P) : ℤ) * P - epoch
      = (((round ((epoch - b) / P) : ℤ) : ℝ) - (epoch - b) / P) * P := by
    field_simp
    ring
  rw [h1, abs_mul, abs_of_pos hP]
  have h2 : |((round ((epoch - b) / P) : ℤ) : ℝ) - (epoch - b) / P| ≤ 1 / 2 := by
    rw [abs_sub_comm]
    exact abs_sub_round _
  calc |((round ((epoch - b) / P) : ℤ) : ℝ) - (epoch - b) / P| * P
      ≤ 1 / 2 * P := mul_le_mul_of_nonneg_right h2 hP.le
    _ = P / 2 := by ring

/-- C2: for `P > 0`, the epoch unwrapper returns a `t0` within half a
period of the epoch, congruent to the base pericenter offset
`−phi0/(2π)·P` reduced into `[0, P)` by the non-negative modulo. -/
theorem C2_pericenter_time_nearest (phi0 P epoch : ℝ) (hP : 0 < P) :
    (0 ≤ posMod (-phi0 / (2 * Real.pi) * P) P ∧
      posMod (-phi0 / (2 * Real.pi) * P) P < P) ∧
    |find_t0 phi0 P epoch - epoch| ≤ P / 2 ∧
    (∃ n : ℤ, find_t0 phi0 P epoch =
      posMod (-phi0 / (2 * Real.pi) * P) P + n * P) := by
  refine ⟨posMod_mem hP, ?_, ?_⟩
  · rw [find_t0_def]
    exact nearest_shift_dist hP _ epoch
  · exact ⟨round ((epoch - posMod (-phi0 / (2 * Real.pi) * P) P) / P), find_t0_def phi0 P epoch⟩

/-- C2, witness: the spec's scenario `P = 1`, `phi0 = π`,
`epoch = 100.3`. -/
theorem C2_pericenter_time_nearest_witness :
    (0:ℝ) < 1 ∧
    ((0 ≤ posMod (-Real.pi / (2 * Real.pi) * 1) 1 ∧
       posMod (-Real.pi / (2 * Real.pi) * 1) 1 < 1) ∧
     |find_t0 Real.pi 1 100.3 - 100.3| ≤ 1 / 2 ∧
     (∃ n : ℤ, find_t0 Real.pi 1 100.3 =
       posMod (-Real.pi / (2 * Real.pi) * 1) 1 + n * 1)) :=
  ⟨by norm_num, C2_pericenter_time_nearest Real.pi 1 100.3 (by norm_num)⟩

/-- C5: for `P > 0`, re-applying the epoch unwrapper to its own result
returns the same pericenter time. -/
theorem C5_find_t0_idempotent (phi0 P epoch : ℝ) (hP : 0 < P) :
    find_t0 phi0 P (find_t0 phi0 P epoch) = find_t0 phi0 P epoch := by
  have hP' : P ≠ 0 := ne_of_gt hP
  have key : ∀ b t : ℝ, (∃ n : ℤ, t = b + n * P) →
      b + (round ((t - b) / P) : ℤ) * P = t := by
    rintro b t ⟨n, rfl⟩
    have h2 : (b + n * P - b) / P = (n : ℝ) := by field_simp
    rw [h2, round_intCast]
  rw [find_t0_def phi0 P (find_t0 phi0 P epoch)]
  exact key _ _ ⟨round ((epoch - posMod (-phi0 / (2 * Real.pi) * P) P) / P),
    find_t0_def phi0 P epoch⟩

/-- C5, witness: idempotence at `phi0 = 0`, `P = 1`,
`epoch = 0.3`. -/
theorem C5_find_t0_idempotent_witness :
    (0:ℝ) < 1 ∧ find_t0 0 1 (find_t0 0 1 0.3) = find_t0 0 1 0.3 :=
  ⟨by norm_num, C5_find_t0_idempotent 0 1 0.3 (by norm_num)⟩

/-- C4: for fixed elements with `P > 0`, the composed pipeline (mean
anomaly, Kepler solve, true anomaly, RV law — as invoked per element
by `rv_from_elements`) is exactly `P`-periodic: the value at
`t + n·P` equals the value at `t`, and likewise for a whole time
array shifted by `n` periods. -/
theorem C4_rv_periodic (P K e omega phi0 : ℝ) (hP : 0 < P) :
    (∀ (t : ℝ) (n : ℕ),
      rv_at P K e omega phi0 (t + n * P) = rv_at P K e omega phi0 t) ∧
    (∀ (times : List ℝ) (n : ℕ),
      rv_from_elements (times.map (fun t => t + n * P)) P K e omega phi0 =
        rv_from_elements times P K e omega phi0) := by
  have hP' : P ≠ 0 := ne_of_gt hP
  have hpt : ∀ (t : ℝ) (n : ℕ),
      rv_at P K e omega phi0 (t + n * P) = rv_at P K e omega phi0 t := by
    intro t n
    have hM : mean_anomaly P phi0 (t + n * P) = mean_anomaly P phi0 t := by
      unfold mean_anomaly
      have h1 : (t + n * P) / P = t / P + ((n : ℤ) : ℝ) := by
        push_cast
        field_simp
      rw [h1, Int.fract_add_int]
    unfold rv_at
    rw [hM]
  refine ⟨hpt, ?_⟩
  intro times n
  unfold rv_from_elements
  rw [List.map_map]
  exact List.map_congr_left (fun t _ => hpt t n)

/-- C4, witness: one full period at concrete elements. -/
theorem C4_rv_periodic_witness :
    (0:ℝ) < 1 ∧
    rv_at 1 1 0 0 0 (0 + ((1 : ℕ) : ℝ) * 1) = rv_at 1 1 0 0 0 0 :=
  ⟨by norm_num, (C4_rv_periodic 1 1 0 0 0 (by norm_num)).1 0 1⟩

/-- C6: `generate_rv_curve` first converts the stored elements to the
fixed internal convention — period to days, semi-amplitude to m/s,
`phi0` and `omega` to radians — runs the engine on the plain numbers,
and re-tags the result as velocity quantities converted to km/s
(value divided by the m/s → km/s factor, unit `kmps`). -/
theorem C6_unit_normalization (o : SimulatedRVOrbit) (t : List ℝ) (p k om ph : ℝ)
    (hp : o.P.to day = some p) (hk : o.K.to mps = some k)
    (hom : o.omega.to radian = some om) (hph : o.phi0.to radian = some ph) :
    o.generate_rv_curve t =
      some ((rv_from_elements t p k o.ecc om ph).map
        (fun v => ⟨v * (mps.scale : ℝ) / (kmps.scale : ℝ), kmps⟩)) := by
  simp [SimulatedRVOrbit.generate_rv_curve, SimulatedRVOrbit.rv_curve_internal,
        hp, hk, hom, hph]

/-- C6, witness: a concrete orbit already tagged in day/(m/s)/radian
units. -/
theorem C6_unit_normalization_witness :
    ((⟨10, day⟩ : Quantity).to day = some 10 ∧
     (⟨5, mps⟩ : Quantity).to mps = some 5 ∧
     (⟨1, radian⟩ : Quantity).to radian = some 1 ∧
     (⟨0, radian⟩ : Quantity).to radian = some 0) ∧
    (⟨⟨10, day⟩, ⟨5, mps⟩, 0.3, ⟨0, radian⟩, ⟨1, radian⟩⟩ :
        SimulatedRVOrbit).generate_rv_curve [0] =
      some ((rv_from_elements [0] 10 5 0.3 1 0).map
        (fun v => ⟨v * (mps.scale : ℝ) / (kmps.scale : ℝ), kmps⟩)) := by
  have hp : (⟨10, day⟩ : Quantity).to day = some 10 := by
    simp [Quantity.to, day]
  have hk : (⟨5, mps⟩ : Quantity).to mps = some 5 := by
    simp [Quantity.to, mps]
  have hom : (⟨1, radian⟩ : Quantity).to radian = some 1 := by
    simp [Quantity.to, radian]
  have hph : (⟨0, radian⟩ : Quantity).to radian = some 0 := by
    simp [Quantity.to, radian]
  exact ⟨⟨hp, hk, hom, hph⟩,
    C6_unit_normalization ⟨⟨10, day⟩, ⟨5, mps⟩, 0.3, ⟨0, radian⟩, ⟨1, radian⟩⟩ [0]
      10 5 1 0 hp hk hom hph⟩

/-- C1: for `0 ≤ e < 1` the engine returns, element-wise over the time
array, `K·(cos(ν(t) + ω) + e·cos ω)` where `ν(t)` is the true anomaly
of the eccentric anomaly solving Kepler's equation
`E − e·sin E = M(t)` for the mean anomaly
`M(t) = 2π·((t/P) mod 1) + phi0`; and at any time where the mean
anomaly is `0` the RV equals `K·(1 + e)·cos ω`. -/
theorem C1_rv_formula (P K e omega phi0 : ℝ) (times : List ℝ)
    (he0 : 0 ≤ e) (he1 : e < 1) :
    rv_from_elements times P K e omega phi0 =
      times.map (fun t =>
        K * (Real.cos (true_anomaly e (eccentric_anomaly e (mean_anomaly P phi0 t)) + omega)
              + e * Real.cos omega)) ∧
    (∀ M : ℝ, eccentric_anomaly e M - e * Real.sin (eccentric_anomaly e M) = M) ∧
    (∀ t : ℝ, mean_anomaly P phi0 t = 0 →
      rv_at P K e omega phi0 t = K * (1 + e) * Real.cos omega) := by
  refine ⟨rfl, ?_, ?_⟩
  · intro M
    have h := eccentric_anomaly_solves he0 he1 M
    simpa [kepler_lhs] using h
  · intro t hM
    unfold rv_at
    rw [hM, eccentric_anomaly_zero he0 he1, true_anomaly_zero, zero_add]
    ring

/-- C1, witness: the spec's scenario `P = 10`, `K = 5`, `e = 0.3`,
`ω = 1`, `phi0 = 0`; at `t = 0` the mean anomaly is `0` and the RV is
`5·1.3·cos 1`. -/
theorem C1_rv_formula_witness :
    (0:ℝ) ≤ 0.3 ∧ (0.3:ℝ) < 1 ∧
    rv_from_elements [0] 10 5 0.3 1 0 =
      [0].map (fun t =>
        5 * (Real.cos (true_anomaly 0.3
              (eccentric_anomaly 0.3 (mean_anomaly 10 0 t)) + 1)
            + 0.3 * Real.cos 1)) ∧
    rv_at 10 5 0.3 1 0 0 = 5 * (1 + 0.3) * Real.cos 1 := by
  have h := C1_rv_formula 10 5 0.3 1 0 [0] (by norm_num) (by norm_num)
  refine ⟨by norm_num, by norm_num, h.1, h.2.2 0 ?_⟩
  simp [mean_anomaly]

end TheJoker
